import Mathlib

/-!
Shallow embedding of `src/control/encoder.rs` from the drm-rs repository,
together with proofs about its behaviour.

The module defines the encoder resource: a typed `Handle` wrapping a raw
32-bit kernel id, an `Info` snapshot with two capability bitmasks, a
technology enumeration decoded from kernel integer constants, and a
query operation `load_from_device` against an ioctl-style transport.

Machine integers (`u32`) are modelled as `Nat`; where Rust wraps
(`Wrapping(1u32) << k`), the wrap is made explicit (`% 32` on the shift
amount, `% 2 ^ 32` on the result).
-/

namespace DrmRs

/-- `control::RawHandle`: an opaque unsigned 32-bit kernel-assigned
identifier, modelled as a natural number (kernel values fit in 32 bits;
none of the operations below overflow it). -/
abbrev RawHandle : Type := Nat

namespace crtc

/-- Modelled from the spec: `control::crtc::Handle` is defined in the CRTC
module, which is not under `src/`; per spec section 4.1 every resource
Handle is a typed wrapper around one `RawHandle` with total
`from_raw` / `as_raw`, the same shape as the encoder `Handle` in `src/`. -/
structure Handle where
  raw : RawHandle
deriving DecidableEq, Repr

/-- `ResourceHandle::from_raw` for `control::crtc::Handle`. -/
def Handle.from_raw (raw : RawHandle) : Handle := Handle.mk raw

/-- `ResourceHandle::as_raw` for `control::crtc::Handle`. -/
def Handle.as_raw (h : Handle) : RawHandle := h.raw

end crtc

namespace ffi

/-- Modelled from the spec: the `ffi` module is not under `src/`. These are
the kernel encoder-type integer constants named in `impl From<u32> for Type`
in `src/control/encoder.rs`; their numeric values follow the kernel ABI
order listed in spec sections 3 and 4.4 (None, DAC, TMDS, LVDS, TVDAC,
Virtual, DSI, DPMST, DPI). -/
def DRM_MODE_ENCODER_NONE : Nat := 0

/-- Kernel constant for a DAC encoder. -/
def DRM_MODE_ENCODER_DAC : Nat := 1

/-- Kernel constant for a TMDS encoder. -/
def DRM_MODE_ENCODER_TMDS : Nat := 2

/-- Kernel constant for an LVDS encoder. -/
def DRM_MODE_ENCODER_LVDS : Nat := 3

/-- Kernel constant for a TVDAC encoder. -/
def DRM_MODE_ENCODER_TVDAC : Nat := 4

/-- Kernel constant for a virtual encoder. -/
def DRM_MODE_ENCODER_VIRTUAL : Nat := 5

/-- Kernel constant for a DSI encoder. -/
def DRM_MODE_ENCODER_DSI : Nat := 6

/-- Kernel constant for a DisplayPort MST encoder. -/
def DRM_MODE_ENCODER_DPMST : Nat := 7

/-- Kernel constant for a DPI encoder. -/
def DRM_MODE_ENCODER_DPI : Nat := 8

/-- Modelled from the spec: the fixed-layout record returned by the
`ioctl_mode_getencoder` transport primitive (spec section 6): encoder id,
encoder type code, currently bound CRTC id, possible-CRTCs bitmask,
possible-clones bitmask, all unsigned 32-bit. -/
structure drm_mode_get_encoder where
  encoder_id : Nat
  encoder_type : Nat
  crtc_id : Nat
  possible_crtcs : Nat
  possible_clones : Nat
deriving DecidableEq, Repr

end ffi

namespace encoder

/-- `encoder::Handle`: a `ResourceHandle` for an encoder, wrapping one
`control::RawHandle` (`pub struct Handle(control::RawHandle)`). -/
structure Handle where
  raw : RawHandle
deriving DecidableEq, Repr

/-- `ResourceHandle::from_raw` for `encoder::Handle`: `Handle(raw)`. -/
def Handle.from_raw (raw : RawHandle) : Handle := Handle.mk raw

/-- `ResourceHandle::as_raw` for `encoder::Handle`: `self.0`. -/
def Handle.as_raw (h : Handle) : RawHandle := h.raw

/-- The `Type` enum of `src/control/encoder.rs` (renamed, since `Type` is a
reserved name in Lean): the encoder technology. -/
inductive EncoderType where
  | None
  | DAC
  | TMDS
  | LVDS
  | TVDAC
  | Virtual
  | DSI
  | DPMST
  | DPI
deriving DecidableEq, Repr

/-- `impl From<u32> for Type`: each kernel constant maps to its variant and
every other integer falls through the catch-all arm to `Type::None`. The
Rust `match` on distinct integer constants is rendered as an `if` chain. -/
def EncoderType.from_u32 (n : Nat) : EncoderType :=
  if n = ffi.DRM_MODE_ENCODER_NONE then EncoderType.None
  else if n = ffi.DRM_MODE_ENCODER_DAC then EncoderType.DAC
  else if n = ffi.DRM_MODE_ENCODER_TMDS then EncoderType.TMDS
  else if n = ffi.DRM_MODE_ENCODER_LVDS then EncoderType.LVDS
  else if n = ffi.DRM_MODE_ENCODER_TVDAC then EncoderType.TVDAC
  else if n = ffi.DRM_MODE_ENCODER_VIRTUAL then EncoderType.Virtual
  else if n = ffi.DRM_MODE_ENCODER_DSI then EncoderType.DSI
  else if n = ffi.DRM_MODE_ENCODER_DPMST then EncoderType.DPMST
  else if n = ffi.DRM_MODE_ENCODER_DPI then EncoderType.DPI
  else EncoderType.None

/-- `encoder::Info`: a `ResourceInfo` snapshot for an encoder. -/
structure Info where
  handle : Handle
  crtc_id : crtc.Handle
  enc_type : EncoderType
  possible_crtcs : Nat
  possible_clones : Nat
deriving DecidableEq, Repr

/-- `Wrapping(x: u32) << (k: usize)` from `std::num::Wrapping`: the shift
amount is reduced mod 32 (Rust masks the shift count by the bit width) and
the result is a `u32`, hence reduced mod `2 ^ 32`. -/
def wrapping_shl_u32 (x k : Nat) : Nat := (x <<< (k % 32)) % 2 ^ 32

/-- `Info::encoder_type`: `self.enc_type`. -/
def Info.encoder_type (i : Info) : EncoderType := i.enc_type

/-- `Info::current_crtc`: `None` when `self.crtc_id.as_raw() == 0`, else
`Some(self.crtc_id)`. -/
def Info.current_crtc (i : Info) : Option crtc.Handle :=
  if i.crtc_id.as_raw = 0 then none else some i.crtc_id

/-- `Info::supports_crtc`:
`self.possible_crtcs & (Wrapping(1u32) << crtc.as_raw() as usize).0 != 0`. -/
def Info.supports_crtc (i : Info) (crtc : crtc.Handle) : Bool :=
  i.possible_crtcs &&& wrapping_shl_u32 1 crtc.as_raw != 0

/-- `Info::supports_clone`:
`self.possible_clones & (Wrapping(1u32) << crtc.as_raw() as usize).0 != 0`. -/
def Info.supports_clone (i : Info) (crtc : crtc.Handle) : Bool :=
  i.possible_clones &&& wrapping_shl_u32 1 crtc.as_raw != 0

/-- Modelled from the spec: the device/transport collaborator
(`control::Device` plus `ffi::ioctl_mode_getencoder`) is not under `src/`.
Per spec section 6 it is a query primitive taking an encoder id and
returning the fixed-layout record or a transport error; the error type is
left abstract. -/
structure Device (ε : Type) where
  ioctl_mode_getencoder : RawHandle → Except ε ffi.drm_mode_get_encoder

/-- One transport invocation: returns the device's response and appends the
queried id to the trace of issued queries. The trace makes the number of
device round-trips observable in the embedding. -/
def Device.run_ioctl {ε : Type} (d : Device ε) (id : RawHandle)
    (trace : List RawHandle) : Except ε ffi.drm_mode_get_encoder × List RawHandle :=
  (d.ioctl_mode_getencoder id, trace ++ [id])

/-- `ResourceInfo::load_from_device` for `encoder::Info`: sets
`raw.encoder_id = handle.as_raw()`, performs the single
`ioctl_mode_getencoder` call (`try!` propagates a transport error
unchanged), and on success decodes the record into an `Info`. The query
trace is threaded alongside the result. -/
def Info.load_from_device {ε : Type} (device : Device ε) (handle : Handle)
    (trace : List RawHandle) : Except ε Info × List RawHandle :=
  let res := Device.run_ioctl device handle.as_raw trace
  match res.1 with
  | Except.error e => (Except.error e, res.2)
  | Except.ok raw =>
    (Except.ok
      { handle := handle
        crtc_id := crtc.Handle.from_raw raw.crtc_id
        enc_type := EncoderType.from_u32 raw.encoder_type
        possible_crtcs := raw.possible_crtcs
        possible_clones := raw.possible_clones }, res.2)

/-- Concrete scenario Info from the spec: `possible_crtcs = 0b0101`. -/
def infoB0101 : Info :=
  { handle := Handle.from_raw 1
    crtc_id := crtc.Handle.from_raw 0
    enc_type := EncoderType.None
    possible_crtcs := 5
    possible_clones := 0 }

/-- Concrete scenario Info from the spec: `crtc_id` raw value 7. -/
def infoCrtc7 : Info :=
  { handle := Handle.from_raw 2
    crtc_id := crtc.Handle.from_raw 7
    enc_type := EncoderType.DAC
    possible_crtcs := 0
    possible_clones := 0 }

/-- A device stub whose transport always reports error `42`. -/
def errDevice : Device Nat :=
  { ioctl_mode_getencoder := fun _ => Except.error 42 }

/-- A device stub whose transport succeeds with a fixed record. -/
def okDevice : Device Nat :=
  { ioctl_mode_getencoder := fun id =>
      Except.ok
        { encoder_id := id
          encoder_type := 2
          crtc_id := 7
          possible_crtcs := 5
          possible_clones := 1 } }

/-- Testing a bitmask against `1 <<< k` tests bit `k`. -/
theorem and_one_shl_ne_zero (p k : Nat) : (p &&& 1 <<< k != 0) = p.testBit k := by
  rw [Nat.shiftLeft_eq, one_mul, Nat.and_two_pow]
  cases h : p.testBit k
  · simp
  · simp [(Nat.two_pow_pos k).ne']

/-- The wrapping shift of `1u32` by `k` is an exact shift by `k % 32`. -/
theorem wrapping_shl_u32_one (k : Nat) : wrapping_shl_u32 1 k = 1 <<< (k % 32) := by
  unfold wrapping_shl_u32
  apply Nat.mod_eq_of_lt
  rw [Nat.shiftLeft_eq, one_mul]
  exact Nat.pow_lt_pow_right (by norm_num) (Nat.mod_lt _ (by norm_num))

/-- `supports_crtc` tests bit `as_raw % 32` of `possible_crtcs`. -/
theorem supports_crtc_eq_testBit (i : Info) (c : crtc.Handle) :
    i.supports_crtc c = i.possible_crtcs.testBit (c.as_raw % 32) := by
  unfold Info.supports_crtc
  rw [wrapping_shl_u32_one, and_one_shl_ne_zero]

/-- `supports_clone` tests bit `as_raw % 32` of `possible_clones`. -/
theorem supports_clone_eq_testBit (i : Info) (c : crtc.Handle) :
    i.supports_clone c = i.possible_clones.testBit (c.as_raw % 32) := by
  unfold Info.supports_clone
  rw [wrapping_shl_u32_one, and_one_shl_ne_zero]

/-- C1: for every Info and every CRTC handle whose raw value k is below 32,
supports_crtc returns true iff bit k of possible_crtcs is 1, supports_clone
performs the identical test against possible_clones, and for an Info with
possible_crtcs = 0b0101 the queries at indices 0, 1, 2, 3 yield true,
false, true, false. -/
theorem encoder_C1 :
    (∀ (i : Info) (k : Nat), k < 32 →
      i.supports_crtc (crtc.Handle.from_raw k) = i.possible_crtcs.testBit k ∧
      i.supports_clone (crtc.Handle.from_raw k) = i.possible_clones.testBit k) ∧
    (infoB0101.supports_crtc (crtc.Handle.from_raw 0) = true ∧
     infoB0101.supports_crtc (crtc.Handle.from_raw 1) = false ∧
     infoB0101.supports_crtc (crtc.Handle.from_raw 2) = true ∧
     infoB0101.supports_crtc (crtc.Handle.from_raw 3) = false) := by
  refine ⟨fun i k hk => ⟨?_, ?_⟩, by decide⟩
  · rw [supports_crtc_eq_testBit]
    simp only [crtc.Handle.as_raw, crtc.Handle.from_raw, Nat.mod_eq_of_lt hk]
  · rw [supports_clone_eq_testBit]
    simp only [crtc.Handle.as_raw, crtc.Handle.from_raw, Nat.mod_eq_of_lt hk]

/-- Witness for C1: the in-range case at k = 2 on the 0b0101 scenario. -/
theorem encoder_C1_witness :
    infoB0101.supports_crtc (crtc.Handle.from_raw 2) =
      infoB0101.possible_crtcs.testBit 2 :=
  (encoder_C1.1 infoB0101 2 (by decide)).1

/-- C2: for every Info and every CRTC handle whose raw value k is at least
32, supports_crtc and supports_clone are total (they are functions of the
embedding) and the 32-bit shift wraps: the result equals the test of bit
(k mod 32) of the respective bitmask. -/
theorem encoder_C2 (i : Info) (k : Nat) (_hk : 32 ≤ k) :
    i.supports_crtc (crtc.Handle.from_raw k) = i.possible_crtcs.testBit (k % 32) ∧
    i.supports_clone (crtc.Handle.from_raw k) = i.possible_clones.testBit (k % 32) :=
  ⟨supports_crtc_eq_testBit i (crtc.Handle.from_raw k),
   supports_clone_eq_testBit i (crtc.Handle.from_raw k)⟩

/-- Witness for C2: the wrapped case at k = 35, which tests bit 3. -/
theorem encoder_C2_witness :
    infoB0101.supports_crtc (crtc.Handle.from_raw 35) =
      infoB0101.possible_crtcs.testBit 3 :=
  (encoder_C2 infoB0101 35 (by decide)).1

/-- C3: the code derives the bit position from the CRTC Handle's raw id,
not from an enumeration index: with possible_crtcs = 0b1 (only the CRTC at
enumeration index 0 supported), a CRTC whose raw kernel id is 5 is
reported unsupported — the result tracks the raw id (bit 5, as the second
conjunct shows with possible_crtcs = 0b100000) regardless of the CRTC's
enumeration position. -/
theorem encoder_C3_bit_position_from_raw_id :
    (Info.mk (Handle.from_raw 1) (crtc.Handle.from_raw 0)
        EncoderType.None 1 1).supports_crtc (crtc.Handle.from_raw 5) = false ∧
    (Info.mk (Handle.from_raw 1) (crtc.Handle.from_raw 0)
        EncoderType.None 32 32).supports_crtc (crtc.Handle.from_raw 5) = true := by
  decide

/-- C4: the integer-to-Type decode is total: each defined kernel constant
(NONE, DAC, TMDS, LVDS, TVDAC, VIRTUAL, DSI, DPMST, DPI, i.e. 0..8) maps
to its named variant, and every integer outside the defined set maps to
Type::None rather than producing an error. -/
theorem encoder_C4 :
    (∀ n : Nat, 8 < n → EncoderType.from_u32 n = EncoderType.None) ∧
    (EncoderType.from_u32 ffi.DRM_MODE_ENCODER_NONE = EncoderType.None ∧
     EncoderType.from_u32 ffi.DRM_MODE_ENCODER_DAC = EncoderType.DAC ∧
     EncoderType.from_u32 ffi.DRM_MODE_ENCODER_TMDS = EncoderType.TMDS ∧
     EncoderType.from_u32 ffi.DRM_MODE_ENCODER_LVDS = EncoderType.LVDS ∧
     EncoderType.from_u32 ffi.DRM_MODE_ENCODER_TVDAC = EncoderType.TVDAC ∧
     EncoderType.from_u32 ffi.DRM_MODE_ENCODER_VIRTUAL = EncoderType.Virtual ∧
     EncoderType.from_u32 ffi.DRM_MODE_ENCODER_DSI = EncoderType.DSI ∧
     EncoderType.from_u32 ffi.DRM_MODE_ENCODER_DPMST = EncoderType.DPMST ∧
     EncoderType.from_u32 ffi.DRM_MODE_ENCODER_DPI = EncoderType.DPI) := by
  refine ⟨fun n hn => ?_, by decide⟩
  simp only [EncoderType.from_u32, ffi.DRM_MODE_ENCODER_NONE,
    ffi.DRM_MODE_ENCODER_DAC, ffi.DRM_MODE_ENCODER_TMDS,
    ffi.DRM_MODE_ENCODER_LVDS, ffi.DRM_MODE_ENCODER_TVDAC,
    ffi.DRM_MODE_ENCODER_VIRTUAL, ffi.DRM_MODE_ENCODER_DSI,
    ffi.DRM_MODE_ENCODER_DPMST, ffi.DRM_MODE_ENCODER_DPI]
  repeat rw [if_neg (by omega)]

/-- Witness for C4: the unrecognized code 4096 decodes to Type::None. -/
theorem encoder_C4_witness : EncoderType.from_u32 4096 = EncoderType.None :=
  encoder_C4.1 4096 (by decide)

/-- C5: current_crtc returns none iff the crtc_id raw value is 0, and
otherwise returns some wrapping exactly that crtc_id handle; raw 7 yields
some (Handle 7). -/
theorem encoder_C5 :
    (∀ i : Info, i.current_crtc = none ↔ i.crtc_id.as_raw = 0) ∧
    (∀ i : Info, i.crtc_id.as_raw ≠ 0 → i.current_crtc = some i.crtc_id) ∧
    infoCrtc7.current_crtc = some (crtc.Handle.from_raw 7) := by
  refine ⟨fun i => ?_, fun i h => ?_, by decide⟩
  · unfold Info.current_crtc
    split <;> simp_all
  · unfold Info.current_crtc
    rw [if_neg h]

/-- Witness for C5: the some-branch at the raw value 7 scenario. -/
theorem encoder_C5_witness : infoCrtc7.current_crtc = some infoCrtc7.crtc_id :=
  encoder_C5.2.1 infoCrtc7 (by decide)

/-- C6: load_from_device issues exactly one query against the device for
the given handle (the query trace grows by exactly that handle's raw id);
it returns an error iff the transport query reports one, and that error is
propagated unmodified; on success it returns the fully populated Info
decoded from the response record. -/
theorem encoder_C6 {ε : Type} (d : Device ε) (h : Handle) (t : List RawHandle) :
    (Info.load_from_device d h t).2 = t ++ [h.as_raw] ∧
    (∀ e, d.ioctl_mode_getencoder h.as_raw = Except.error e →
      (Info.load_from_device d h t).1 = Except.error e) ∧
    (∀ e, (Info.load_from_device d h t).1 = Except.error e →
      d.ioctl_mode_getencoder h.as_raw = Except.error e) ∧
    (∀ r, d.ioctl_mode_getencoder h.as_raw = Except.ok r →
      (Info.load_from_device d h t).1 = Except.ok
        { handle := h
          crtc_id := crtc.Handle.from_raw r.crtc_id
          enc_type := EncoderType.from_u32 r.encoder_type
          possible_crtcs := r.possible_crtcs
          possible_clones := r.possible_clones }) := by
  unfold Info.load_from_device Device.run_ioctl
  cases hd : d.ioctl_mode_getencoder h.as_raw <;> simp [hd]

/-- Witness for C6: the error-returning device stub propagates error 42
unchanged and the trace records the single query for raw id 3. -/
theorem encoder_C6_witness :
    (Info.load_from_device errDevice (Handle.from_raw 3) []).1 = Except.error 42 ∧
    (Info.load_from_device errDevice (Handle.from_raw 3) []).2 = [3] :=
  ⟨(encoder_C6 errDevice (Handle.from_raw 3) []).2.1 42 rfl,
   (encoder_C6 errDevice (Handle.from_raw 3) []).1⟩

/-- C7: for every raw id value v, Handle::from_raw(v).as_raw() == v, and
both operations are total functions of the embedding. -/
theorem encoder_C7 (v : RawHandle) : (Handle.from_raw v).as_raw = v := rfl

/-- C8: every Info successfully produced by load_from_device carries
exactly the handle that was passed in. -/
theorem encoder_C8 {ε : Type} (d : Device ε) (h : Handle) (t : List RawHandle)
    (i : Info) (hok : (Info.load_from_device d h t).1 = Except.ok i) :
    i.handle = h := by
  unfold Info.load_from_device Device.run_ioctl at hok
  cases hd : d.ioctl_mode_getencoder h.as_raw <;> simp [hd] at hok
  rw [← hok]

/-- Witness for C8: the succeeding device stub at raw handle 9. -/
theorem encoder_C8_witness :
    Info.handle
      { handle := Handle.from_raw 9
        crtc_id := crtc.Handle.from_raw 7
        enc_type := EncoderType.TMDS
        possible_crtcs := 5
        possible_clones := 1 } = Handle.from_raw 9 :=
  encoder_C8 okDevice (Handle.from_raw 9) [] _ rfl

/-- C9: the none-sentinel CRTC handle (raw value 0) is accepted by
supports_crtc and supports_clone: the result is the test of bit 0 of the
respective bitmask. -/
theorem encoder_C9 (i : Info) :
    i.supports_crtc (crtc.Handle.from_raw 0) = i.possible_crtcs.testBit 0 ∧
    i.supports_clone (crtc.Handle.from_raw 0) = i.possible_clones.testBit 0 :=
  ⟨supports_crtc_eq_testBit i (crtc.Handle.from_raw 0),
   supports_clone_eq_testBit i (crtc.Handle.from_raw 0)⟩

/-- C10: the decode is not injective: DRM_MODE_ENCODER_NONE (0) and the
unrecognized code 100 are two distinct input codes that both decode to
Type::None, so encoder_type cannot distinguish them. -/
theorem encoder_C10 :
    EncoderType.from_u32 ffi.DRM_MODE_ENCODER_NONE = EncoderType.None ∧
    EncoderType.from_u32 100 = EncoderType.None ∧
    ffi.DRM_MODE_ENCODER_NONE ≠ 100 := by decide

end encoder

end DrmRs
